import Mathlib

/-!
Shallow embedding of `src/bybit_momentum_scanner.py`.

The logical core of the program is the per-ticker body of `main_loop`
(lines 118-160).  The two process-wide mutable dicts `snapshots`
(symbol -> {"price", "vol", "ts"}) and `last_alert` (symbol -> epoch) are
made explicit state, numeric fields are modelled by `ℚ` and timestamps by
`ℤ`, and each `continue`/alert path of the loop body is labelled with the
corresponding decision of the spec's `AlertDecision` taxonomy
(`Skipped` for the symbol filter at lines 120-122, which the spec places
upstream of the evaluator).
-/

namespace BybitScanner

/-- A stored reference snapshot: `{"price": ..., "vol": ..., "ts": ...}`
(line 40 / lines 129, 133, 160 of the source). -/
structure Snapshot where
  price : ℚ
  vol : ℚ
  ts : ℤ
deriving DecidableEq, Repr

/-- The configuration constants read from the environment
(lines 19, 20, 21, 24 of the source). -/
structure Config where
  WINDOW_SECONDS : ℤ
  PRICE_CHANGE_PCT : ℚ
  VOL_MULTIPLIER : ℚ
  MIN_TURNOVER : ℚ
deriving Repr

/-- One ticker entry as consumed by the loop body: `symbol`,
`lastPrice`, `turnover24h` (lines 120, 124, 125). -/
structure Obs where
  symbol : String
  lastPrice : ℚ
  turnover24h : ℚ
deriving DecidableEq, Repr

/-- The mutable program state: the `snapshots` and `last_alert` dicts
(lines 40-41), modelled as total functions into `Option`. -/
structure ScannerState where
  snapshots : String → Option Snapshot
  last_alert : String → Option ℤ

/-- The spec's decision taxonomy, labelling each path of the loop body.
`Fired` carries the two computed metrics of the alert record. -/
inductive AlertDecision where
  | Skipped
  | BelowLiquidity
  | NoBaseline
  | WindowNotElapsed
  | NoThresholdMet
  | Cooldown
  | Fired (priceChangePct volMult : ℚ)
deriving DecidableEq, Repr

/-- Python's `str.endswith`: the suffix test on the character sequence
(line 121 of the source uses `symbol.endswith("USDT")`). -/
def endswith (s post : String) : Bool := post.data.isSuffixOf s.data

/-- Line 140: `((last_price - prev["price"]) / prev["price"]) * 100 if
prev["price"] > 0 else 0`. -/
def price_change_pct (prev : Snapshot) (last_price : ℚ) : ℚ :=
  if prev.price > 0 then ((last_price - prev.price) / prev.price) * 100 else 0

/-- Line 141: `(turnover24h / prev["vol"]) if prev["vol"] > 0 else 0`. -/
def vol_multiplier (prev : Snapshot) (turnover24h : ℚ) : ℚ :=
  if prev.vol > 0 then turnover24h / prev.vol else 0

/-- `snapshots[symbol] = s`. -/
def setSnap (st : ScannerState) (sym : String) (s : Snapshot) : ScannerState :=
  { st with snapshots := fun x => if x = sym then some s else st.snapshots x }

/-- `last_alert[symbol] = ts`. -/
def setAlert (st : ScannerState) (sym : String) (ts : ℤ) : ScannerState :=
  { st with last_alert := fun x => if x = sym then some ts else st.last_alert x }

/-- The per-ticker body of `main_loop` (lines 118-160), as a pure state
transformer.  Paths:
* lines 120-122: falsy or non-`USDT` symbol -> `Skipped`, no state change;
* lines 127-130: `turnover24h < MIN_TURNOVER` -> `BelowLiquidity`, seeding a
  snapshot only if absent;
* lines 132-134: no snapshot -> `NoBaseline`, seed the snapshot;
* lines 136-139: `elapsed < WINDOW_SECONDS` -> `WindowNotElapsed`, no change;
* lines 139-160: window elapsed: compute the two ratios (lines 140-141),
  check thresholds (line 146) and the alert gap `MIN_ALERT_GAP =
  WINDOW_SECONDS` (lines 143-147, with `last_alert.get(symbol, 0)`), update
  `last_alert` on fire (line 158), and unconditionally replace the snapshot
  (line 160). -/
def processTicker (cfg : Config) (st : ScannerState) (t : Obs) (now_epoch : ℤ) :
    AlertDecision × ScannerState :=
  if t.symbol = "" ∨ endswith t.symbol "USDT" = false then
    (.Skipped, st)
  else if t.turnover24h < cfg.MIN_TURNOVER then
    match st.snapshots t.symbol with
    | none => (.BelowLiquidity, setSnap st t.symbol ⟨t.lastPrice, t.turnover24h, now_epoch⟩)
    | some _ => (.BelowLiquidity, st)
  else
    match st.snapshots t.symbol with
    | none => (.NoBaseline, setSnap st t.symbol ⟨t.lastPrice, t.turnover24h, now_epoch⟩)
    | some prev =>
      if now_epoch - prev.ts ≥ cfg.WINDOW_SECONDS then
        let pct := price_change_pct prev t.lastPrice
        let volx := vol_multiplier prev t.turnover24h
        let last_alert_time := (st.last_alert t.symbol).getD 0
        let st' := setSnap st t.symbol ⟨t.lastPrice, t.turnover24h, now_epoch⟩
        if pct ≥ cfg.PRICE_CHANGE_PCT ∧ volx ≥ cfg.VOL_MULTIPLIER then
          if now_epoch - last_alert_time ≥ cfg.WINDOW_SECONDS then
            (.Fired pct volx, setAlert st' t.symbol now_epoch)
          else
            (.Cooldown, st')
        else
          (.NoThresholdMet, st')
      else
        (.WindowNotElapsed, st)

/-- Processing a batch of tickers in sequence, each with its observation
timestamp (the `for t in tickers` loop across polling ticks). -/
def runTickers (cfg : Config) (st : ScannerState) :
    List (Obs × ℤ) → List AlertDecision × ScannerState
  | [] => ([], st)
  | (t, now) :: rest =>
    let r := processTicker cfg st t now
    let rs := runTickers cfg r.2 rest
    (r.1 :: rs.1, rs.2)

/-- A state with no snapshots and no alert history. -/
def emptyState : ScannerState := ⟨fun _ => none, fun _ => none⟩

/-- The config used by the concrete scenarios below: 900-second window,
3% price threshold, 2x volume threshold, 1000 turnover floor. -/
def cfg0 : Config := ⟨900, 3, 2, 1000⟩

/-- A state holding a single snapshot `price=100, volume=1000, ts=0` for
`"BTCUSDT"`, with an empty cooldown ledger. -/
def stBase : ScannerState :=
  ⟨fun s => if s = "BTCUSDT" then some ⟨100, 1000, 0⟩ else none, fun _ => none⟩

/-- A state with one snapshot for `"BTCUSDT"` and an `800`-epoch cooldown
ledger entry for it. -/
def stCool : ScannerState :=
  ⟨fun s => if s = "BTCUSDT" then some ⟨100, 1000, 0⟩ else none,
   fun s => if s = "BTCUSDT" then some 800 else none⟩

/-! ### Branch characterization lemmas for `processTicker` -/

lemma endswith_ne_empty {s : String} (h : endswith s "USDT" = true) : s ≠ "" := by
  rintro rfl
  exact absurd h (by decide)

lemma valid_not_skip {s : String} (h : endswith s "USDT" = true) :
    ¬(s = "" ∨ endswith s "USDT" = false) := by
  rintro (rfl | h2)
  · exact absurd h (by decide)
  · rw [h] at h2
    cases h2

lemma processTicker_skip (cfg : Config) (st : ScannerState) (t : Obs) (now : ℤ)
    (h : t.symbol = "" ∨ endswith t.symbol "USDT" = false) :
    processTicker cfg st t now = (.Skipped, st) := by
  unfold processTicker
  rw [if_pos h]

lemma processTicker_below_none (cfg : Config) (st : ScannerState) (t : Obs) (now : ℤ)
    (hs : ¬(t.symbol = "" ∨ endswith t.symbol "USDT" = false))
    (hv : t.turnover24h < cfg.MIN_TURNOVER)
    (hn : st.snapshots t.symbol = none) :
    processTicker cfg st t now =
      (.BelowLiquidity, setSnap st t.symbol ⟨t.lastPrice, t.turnover24h, now⟩) := by
  unfold processTicker
  rw [if_neg hs, if_pos hv, hn]

lemma processTicker_below_some (cfg : Config) (st : ScannerState) (t : Obs) (now : ℤ)
    (hs : ¬(t.symbol = "" ∨ endswith t.symbol "USDT" = false))
    (hv : t.turnover24h < cfg.MIN_TURNOVER)
    (prev : Snapshot) (hp : st.snapshots t.symbol = some prev) :
    processTicker cfg st t now = (.BelowLiquidity, st) := by
  unfold processTicker
  rw [if_neg hs, if_pos hv, hp]

lemma processTicker_no_baseline (cfg : Config) (st : ScannerState) (t : Obs) (now : ℤ)
    (hs : ¬(t.symbol = "" ∨ endswith t.symbol "USDT" = false))
    (hv : ¬t.turnover24h < cfg.MIN_TURNOVER)
    (hn : st.snapshots t.symbol = none) :
    processTicker cfg st t now =
      (.NoBaseline, setSnap st t.symbol ⟨t.lastPrice, t.turnover24h, now⟩) := by
  unfold processTicker
  rw [if_neg hs, if_neg hv, hn]

lemma processTicker_window_open (cfg : Config) (st : ScannerState) (t : Obs) (now : ℤ)
    (hs : ¬(t.symbol = "" ∨ endswith t.symbol "USDT" = false))
    (hv : ¬t.turnover24h < cfg.MIN_TURNOVER)
    (prev : Snapshot) (hp : st.snapshots t.symbol = some prev)
    (he : ¬now - prev.ts ≥ cfg.WINDOW_SECONDS) :
    processTicker cfg st t now = (.WindowNotElapsed, st) := by
  unfold processTicker
  rw [if_neg hs, if_neg hv, hp]
  simp only [if_neg he]

lemma processTicker_elapsed (cfg : Config) (st : ScannerState) (t : Obs) (now : ℤ)
    (hs : ¬(t.symbol = "" ∨ endswith t.symbol "USDT" = false))
    (hv : ¬t.turnover24h < cfg.MIN_TURNOVER)
    (prev : Snapshot) (hp : st.snapshots t.symbol = some prev)
    (he : now - prev.ts ≥ cfg.WINDOW_SECONDS) :
    processTicker cfg st t now =
      (if price_change_pct prev t.lastPrice ≥ cfg.PRICE_CHANGE_PCT ∧
          vol_multiplier prev t.turnover24h ≥ cfg.VOL_MULTIPLIER then
        if now - (st.last_alert t.symbol).getD 0 ≥ cfg.WINDOW_SECONDS then
          (.Fired (price_change_pct prev t.lastPrice) (vol_multiplier prev t.turnover24h),
            setAlert (setSnap st t.symbol ⟨t.lastPrice, t.turnover24h, now⟩) t.symbol now)
        else
          (.Cooldown, setSnap st t.symbol ⟨t.lastPrice, t.turnover24h, now⟩)
      else
        (.NoThresholdMet, setSnap st t.symbol ⟨t.lastPrice, t.turnover24h, now⟩)) := by
  unfold processTicker
  rw [if_neg hs, if_neg hv, hp]
  simp only [if_pos he]

lemma setSnap_self (st : ScannerState) (sym : String) (s : Snapshot) :
    (setSnap st sym s).snapshots sym = some s := by
  simp [setSnap]

lemma setSnap_last_alert (st : ScannerState) (sym : String) (s : Snapshot) :
    (setSnap st sym s).last_alert = st.last_alert := rfl

lemma setAlert_snapshots (st : ScannerState) (sym : String) (ts : ℤ) :
    (setAlert st sym ts).snapshots = st.snapshots := rfl

lemma setAlert_self (st : ScannerState) (sym : String) (ts : ℤ) :
    (setAlert st sym ts).last_alert sym = some ts := by
  simp [setAlert]

/-! ### Claim theorems -/

/-- C1: with stored snapshot `price=100, volume=1000`, observation
`price=104, volume=2100` after the window elapsed, thresholds `3.0` / `2.0`,
volume above the floor and no active cooldown, the evaluation fires with
`priceChangePct = 4.0` and `volumeRatio = 2.1`; both threshold comparisons
are inclusive, so values exactly at threshold (`priceChangePct = 3.0`,
`volumeRatio = 2.0`) also fire. -/
theorem fired_on_inclusive_thresholds :
    (processTicker cfg0 stBase ⟨"BTCUSDT", 104, 2100⟩ 900).1 = .Fired 4 (21/10) ∧
    (processTicker cfg0 stBase ⟨"BTCUSDT", 103, 2000⟩ 900).1 = .Fired 3 2 := by
  constructor <;>
    norm_num [processTicker, cfg0, stBase, price_change_pct, vol_multiplier, setSnap, setAlert,
      show endswith "BTCUSDT" "USDT" = true from by decide,
      show ("BTCUSDT" : String) ≠ "" from by decide]

/-- C3: for an instrument with an existing snapshot and volume at or above
the floor, when `elapsed = now - snapshot.ts < WINDOW_SECONDS` the
evaluation returns `WindowNotElapsed` and the whole state — in particular
the stored snapshot and the cooldown ledger entry — is unchanged. -/
theorem window_not_elapsed_frame (cfg : Config) (st : ScannerState) (t : Obs) (now : ℤ)
    (prev : Snapshot)
    (hsym : endswith t.symbol "USDT" = true)
    (hvol : cfg.MIN_TURNOVER ≤ t.turnover24h)
    (hsnap : st.snapshots t.symbol = some prev)
    (helap : now - prev.ts < cfg.WINDOW_SECONDS) :
    processTicker cfg st t now = (.WindowNotElapsed, st) :=
  processTicker_window_open cfg st t now (valid_not_skip hsym) (not_lt.mpr hvol) prev hsnap
    (not_le.mpr helap)

theorem window_not_elapsed_frame_witness :
    processTicker cfg0 stBase ⟨"BTCUSDT", 104, 2100⟩ 100 = (.WindowNotElapsed, stBase) :=
  window_not_elapsed_frame cfg0 stBase ⟨"BTCUSDT", 104, 2100⟩ 100 ⟨100, 1000, 0⟩
    (by decide) (by norm_num [cfg0]) (by norm_num [stBase]) (by norm_num [cfg0])

/-- C4: for an instrument with an existing snapshot, volume at or above the
floor, and `elapsed ≥ WINDOW_SECONDS`, the stored snapshot is replaced by
the current observation (price, volume, timestamp), whatever the decision
(`NoThresholdMet`, `Cooldown` or `Fired`). -/
theorem snapshot_reset_unconditional (cfg : Config) (st : ScannerState) (t : Obs) (now : ℤ)
    (prev : Snapshot)
    (hsym : endswith t.symbol "USDT" = true)
    (hvol : cfg.MIN_TURNOVER ≤ t.turnover24h)
    (hsnap : st.snapshots t.symbol = some prev)
    (helap : cfg.WINDOW_SECONDS ≤ now - prev.ts) :
    (processTicker cfg st t now).2.snapshots t.symbol =
      some ⟨t.lastPrice, t.turnover24h, now⟩ := by
  rw [processTicker_elapsed cfg st t now (valid_not_skip hsym) (not_lt.mpr hvol) prev hsnap helap]
  by_cases hth : price_change_pct prev t.lastPrice ≥ cfg.PRICE_CHANGE_PCT ∧
      vol_multiplier prev t.turnover24h ≥ cfg.VOL_MULTIPLIER
  · rw [if_pos hth]
    by_cases hcd : now - (st.last_alert t.symbol).getD 0 ≥ cfg.WINDOW_SECONDS
    · rw [if_pos hcd]
      simp only [setAlert_snapshots, setSnap_self]
    · rw [if_neg hcd]
      exact setSnap_self st t.symbol _
  · rw [if_neg hth]
    exact setSnap_self st t.symbol _

theorem snapshot_reset_unconditional_witness :
    (processTicker cfg0 stBase ⟨"BTCUSDT", 50, 1500⟩ 900).2.snapshots "BTCUSDT" =
      some ⟨50, 1500, 900⟩ :=
  snapshot_reset_unconditional cfg0 stBase ⟨"BTCUSDT", 50, 1500⟩ 900 ⟨100, 1000, 0⟩
    (by decide) (by norm_num [cfg0]) (by norm_num [stBase]) (by norm_num [cfg0])

/-- C5: in the window-elapsed computation, a non-positive stored price
short-circuits `price_change_pct` to `0` and a non-positive stored volume
short-circuits `vol_multiplier` to `0`; division is only ever performed
branch-wise against a strictly positive (hence non-zero) divisor. -/
theorem zero_guard_ratios (prev : Snapshot) (lp t24 : ℚ) :
    (prev.price ≤ 0 → price_change_pct prev lp = 0) ∧
    (prev.vol ≤ 0 → vol_multiplier prev t24 = 0) ∧
    (0 < prev.price → prev.price ≠ 0) ∧
    (0 < prev.vol → prev.vol ≠ 0) := by
  refine ⟨fun hp => ?_, fun hv => ?_, fun hp => ne_of_gt hp, fun hv => ne_of_gt hv⟩
  · rw [price_change_pct, if_neg (not_lt.mpr hp)]
  · rw [vol_multiplier, if_neg (not_lt.mpr hv)]

theorem zero_guard_ratios_witness :
    price_change_pct ⟨0, 0, 0⟩ 104 = 0 ∧ vol_multiplier ⟨0, 0, 0⟩ 2100 = 0 :=
  ⟨(zero_guard_ratios ⟨0, 0, 0⟩ 104 2100).1 (by norm_num),
   (zero_guard_ratios ⟨0, 0, 0⟩ 104 2100).2.1 (by norm_num)⟩

/-- C10: an observation whose symbol is empty or does not end with `USDT`
is skipped: no alert can be produced (`Skipped`, never `Fired`) and both
the snapshot store and the cooldown ledger are left entirely unchanged (no
baseline is seeded). -/
theorem invalid_symbol_no_effect (cfg : Config) (st : ScannerState) (t : Obs) (now : ℤ)
    (h : t.symbol = "" ∨ endswith t.symbol "USDT" = false) :
    processTicker cfg st t now = (.Skipped, st) ∧
    ∀ a b, (processTicker cfg st t now).1 ≠ .Fired a b := by
  refine ⟨processTicker_skip cfg st t now h, fun a b hab => ?_⟩
  rw [processTicker_skip cfg st t now h] at hab
  cases hab

theorem invalid_symbol_no_effect_witness :
    processTicker cfg0 emptyState ⟨"BTCPERP", 1, 5000⟩ 0 = (.Skipped, emptyState) ∧
    ∀ a b, (processTicker cfg0 emptyState ⟨"BTCPERP", 1, 5000⟩ 0).1 ≠ .Fired a b :=
  invalid_symbol_no_effect cfg0 emptyState ⟨"BTCPERP", 1, 5000⟩ 0 (Or.inr (by decide))

/-- C2: with snapshot present, volume at or above the floor, window elapsed
and both thresholds met: if `now` minus the instrument's last-fired
timestamp (`last_alert.get(symbol, 0)`) is below the cooldown duration
(`MIN_ALERT_GAP = WINDOW_SECONDS`, the same knob as the window), the
decision is `Cooldown` and the cooldown ledger is not updated; otherwise
the decision is `Fired` and the instrument's ledger entry is set to `now`. -/
theorem cooldown_gate (cfg : Config) (st : ScannerState) (t : Obs) (now : ℤ)
    (prev : Snapshot)
    (hsym : endswith t.symbol "USDT" = true)
    (hvol : cfg.MIN_TURNOVER ≤ t.turnover24h)
    (hsnap : st.snapshots t.symbol = some prev)
    (helap : cfg.WINDOW_SECONDS ≤ now - prev.ts)
    (hpct : cfg.PRICE_CHANGE_PCT ≤ price_change_pct prev t.lastPrice)
    (hvolx : cfg.VOL_MULTIPLIER ≤ vol_multiplier prev t.turnover24h) :
    (now - (st.last_alert t.symbol).getD 0 < cfg.WINDOW_SECONDS →
      (processTicker cfg st t now).1 = .Cooldown ∧
      (processTicker cfg st t now).2.last_alert = st.last_alert) ∧
    (cfg.WINDOW_SECONDS ≤ now - (st.last_alert t.symbol).getD 0 →
      (processTicker cfg st t now).1 =
        .Fired (price_change_pct prev t.lastPrice) (vol_multiplier prev t.turnover24h) ∧
      (processTicker cfg st t now).2.last_alert t.symbol = some now) := by
  rw [processTicker_elapsed cfg st t now (valid_not_skip hsym) (not_lt.mpr hvol) prev hsnap helap,
    if_pos ⟨hpct, hvolx⟩]
  constructor
  · intro hcd
    rw [if_neg (not_le.mpr hcd)]
    exact ⟨rfl, setSnap_last_alert st t.symbol _⟩
  · intro hcd
    rw [if_pos hcd]
    exact ⟨rfl, setAlert_self _ t.symbol now⟩

theorem cooldown_gate_witness :
    (processTicker cfg0 stCool ⟨"BTCUSDT", 104, 2100⟩ 900).1 = .Cooldown ∧
    (processTicker cfg0 stCool ⟨"BTCUSDT", 104, 2100⟩ 900).2.last_alert =
      stCool.last_alert :=
  (cooldown_gate cfg0 stCool ⟨"BTCUSDT", 104, 2100⟩ 900 ⟨100, 1000, 0⟩
    (by decide) (by norm_num [cfg0]) (by norm_num [stCool]) (by norm_num [cfg0])
    (by norm_num [cfg0, price_change_pct]) (by norm_num [cfg0, vol_multiplier])).1
    (by norm_num [stCool, cfg0])

/-- C8: whenever the window-elapsed branch is taken against a stored
snapshot (the decision is `NoThresholdMet`, `Cooldown` or `Fired`, the
three outcomes that compute the ratios) and `WINDOW_SECONDS > 0`, the
snapshot's stored timestamp is at most the evaluation timestamp `now`;
a `now` earlier than the stored timestamp can only yield a decision that
never computed the ratios. -/
theorem snapshot_ts_le_observedAt (cfg : Config) (st : ScannerState) (t : Obs) (now : ℤ)
    (prev : Snapshot)
    (hW : 0 < cfg.WINDOW_SECONDS)
    (hsnap : st.snapshots t.symbol = some prev)
    (hdec : (processTicker cfg st t now).1 = .NoThresholdMet ∨
      (processTicker cfg st t now).1 = .Cooldown ∨
      ∃ a b, (processTicker cfg st t now).1 = .Fired a b) :
    prev.ts ≤ now := by
  by_cases hs : t.symbol = "" ∨ endswith t.symbol "USDT" = false
  · rw [processTicker_skip cfg st t now hs] at hdec
    simp at hdec
  by_cases hv : t.turnover24h < cfg.MIN_TURNOVER
  · rw [processTicker_below_some cfg st t now hs hv prev hsnap] at hdec
    simp at hdec
  by_cases he : now - prev.ts ≥ cfg.WINDOW_SECONDS
  · omega
  · rw [processTicker_window_open cfg st t now hs hv prev hsnap he] at hdec
    simp at hdec

theorem snapshot_ts_le_observedAt_witness :
    (0 : ℤ) ≤ 900 :=
  snapshot_ts_le_observedAt cfg0 stBase ⟨"BTCUSDT", 50, 1500⟩ 900 ⟨100, 1000, 0⟩
    (by norm_num [cfg0]) (by norm_num [stBase])
    (Or.inl (by
      norm_num [processTicker, cfg0, stBase, price_change_pct, vol_multiplier, setSnap,
        show endswith "BTCUSDT" "USDT" = true from by decide,
        show ("BTCUSDT" : String) ≠ "" from by decide]))

/-- C9: given `WINDOW_SECONDS > 0`, an existing cooldown ledger entry is
never removed and is only ever overwritten by the (strictly larger)
firing timestamp `now`; every other path leaves it untouched. -/
theorem ledger_monotone (cfg : Config) (st : ScannerState) (t : Obs) (now : ℤ)
    (s : String) (T : ℤ)
    (hW : 0 < cfg.WINDOW_SECONDS)
    (hT : st.last_alert s = some T) :
    (processTicker cfg st t now).2.last_alert s = some T ∨
    ((processTicker cfg st t now).2.last_alert s = some now ∧ T < now) := by
  by_cases hs : t.symbol = "" ∨ endswith t.symbol "USDT" = false
  · rw [processTicker_skip cfg st t now hs]
    exact Or.inl hT
  by_cases hv : t.turnover24h < cfg.MIN_TURNOVER
  · cases hsnap : st.snapshots t.symbol with
    | none =>
      rw [processTicker_below_none cfg st t now hs hv hsnap]
      exact Or.inl hT
    | some prev =>
      rw [processTicker_below_some cfg st t now hs hv prev hsnap]
      exact Or.inl hT
  cases hsnap : st.snapshots t.symbol with
  | none =>
    rw [processTicker_no_baseline cfg st t now hs hv hsnap]
    exact Or.inl hT
  | some prev =>
    by_cases he : now - prev.ts ≥ cfg.WINDOW_SECONDS
    · rw [processTicker_elapsed cfg st t now hs hv prev hsnap he]
      by_cases hth : price_change_pct prev t.lastPrice ≥ cfg.PRICE_CHANGE_PCT ∧
          vol_multiplier prev t.turnover24h ≥ cfg.VOL_MULTIPLIER
      · rw [if_pos hth]
        by_cases hcd : now - (st.last_alert t.symbol).getD 0 ≥ cfg.WINDOW_SECONDS
        · rw [if_pos hcd]
          by_cases hsym : s = t.symbol
          · subst hsym
            refine Or.inr ⟨setAlert_self _ t.symbol now, ?_⟩
            rw [hT] at hcd
            simp only [Option.getD_some] at hcd
            omega
          · left
            simp only [setAlert, setSnap, if_neg hsym]
            exact hT
        · rw [if_neg hcd]
          exact Or.inl hT
      · rw [if_neg hth]
        exact Or.inl hT
    · rw [processTicker_window_open cfg st t now hs hv prev hsnap he]
      exact Or.inl hT

theorem ledger_monotone_witness :
    (processTicker cfg0 stCool ⟨"BTCUSDT", 104, 2100⟩ 1700).2.last_alert "BTCUSDT" =
      some 800 ∨
    ((processTicker cfg0 stCool ⟨"BTCUSDT", 104, 2100⟩ 1700).2.last_alert "BTCUSDT" =
      some 1700 ∧ (800 : ℤ) < 1700) :=
  ledger_monotone cfg0 stCool ⟨"BTCUSDT", 104, 2100⟩ 1700 "BTCUSDT" 800
    (by norm_num [cfg0]) (by norm_num [stCool])

lemma endswith_true_of_not_skip {s : String} (h : ¬(s = "" ∨ endswith s "USDT" = false)) :
    endswith s "USDT" = true := by
  rcases not_or.mp h with ⟨-, h2⟩
  cases hb : endswith s "USDT"
  · exact absurd hb h2
  · rfl

lemma below_floor_step_decision (cfg : Config) (st : ScannerState) (t : Obs) (now : ℤ)
    (h : t.turnover24h < cfg.MIN_TURNOVER) :
    (processTicker cfg st t now).1 = .Skipped ∨
    (processTicker cfg st t now).1 = .BelowLiquidity := by
  by_cases hs : t.symbol = "" ∨ endswith t.symbol "USDT" = false
  · left
    rw [processTicker_skip cfg st t now hs]
  · right
    cases hsnap : st.snapshots t.symbol with
    | none => rw [processTicker_below_none cfg st t now hs h hsnap]
    | some prev => rw [processTicker_below_some cfg st t now hs h prev hsnap]

lemma below_floor_run_aux (cfg : Config) (l : List (Obs × ℤ)) :
    ∀ st : ScannerState, (∀ p ∈ l, p.1.turnover24h < cfg.MIN_TURNOVER) →
      ∀ d ∈ (runTickers cfg st l).1, ∀ a b, d ≠ AlertDecision.Fired a b := by
  induction l with
  | nil =>
    intro st _ d hd
    simp [runTickers] at hd
  | cons p rest ih =>
    intro st hl d hd a b hcontra
    obtain ⟨t, now⟩ := p
    simp only [runTickers, List.mem_cons] at hd
    rcases hd with rfl | hd
    · rcases below_floor_step_decision cfg st t now (hl (t, now) (List.mem_cons_self _ _))
        with h | h
      · rw [hcontra] at h
        cases h
      · rw [hcontra] at h
        cases h
    · exact ih (processTicker cfg st t now).2
        (fun q hq => hl q (List.mem_cons_of_mem _ hq)) d hd a b hcontra

/-- C6: a run over any sequence of observations each below the turnover
floor produces no `Fired` decision whatever the prices do; a single
below-floor observation of a never-seen (valid) instrument seeds the
baseline snapshot, while an already-existing snapshot is preserved
unchanged (insert-if-absent only). -/
theorem below_floor_never_fires (cfg : Config) (st : ScannerState) (l : List (Obs × ℤ))
    (hl : ∀ p ∈ l, p.1.turnover24h < cfg.MIN_TURNOVER) :
    (∀ d ∈ (runTickers cfg st l).1, ∀ a b, d ≠ AlertDecision.Fired a b) ∧
    (∀ t : Obs, ∀ now : ℤ, t.turnover24h < cfg.MIN_TURNOVER →
      (st.snapshots t.symbol = none → endswith t.symbol "USDT" = true →
        (processTicker cfg st t now).2.snapshots t.symbol =
          some ⟨t.lastPrice, t.turnover24h, now⟩) ∧
      (∀ s, st.snapshots t.symbol = some s →
        (processTicker cfg st t now).2.snapshots t.symbol = some s)) := by
  refine ⟨below_floor_run_aux cfg l st hl,
    fun t now h => ⟨fun hn hsym => ?_, fun s hs2 => ?_⟩⟩
  · rw [processTicker_below_none cfg st t now (valid_not_skip hsym) h hn]
    exact setSnap_self st t.symbol _
  · by_cases hs : t.symbol = "" ∨ endswith t.symbol "USDT" = false
    · rw [processTicker_skip cfg st t now hs]
      exact hs2
    · rw [processTicker_below_some cfg st t now hs h s hs2]
      exact hs2

theorem below_floor_never_fires_witness :
    (∀ d ∈ (runTickers cfg0 emptyState [(⟨"AAAUSDT", 500, 10⟩, 0)]).1,
      ∀ a b, d ≠ AlertDecision.Fired a b) ∧
    (∀ t : Obs, ∀ now : ℤ, t.turnover24h < cfg0.MIN_TURNOVER →
      (emptyState.snapshots t.symbol = none → endswith t.symbol "USDT" = true →
        (processTicker cfg0 emptyState t now).2.snapshots t.symbol =
          some ⟨t.lastPrice, t.turnover24h, now⟩) ∧
      (∀ s, emptyState.snapshots t.symbol = some s →
        (processTicker cfg0 emptyState t now).2.snapshots t.symbol = some s)) :=
  below_floor_never_fires cfg0 emptyState [(⟨"AAAUSDT", 500, 10⟩, 0)]
    (by norm_num [cfg0])

/-- C7 counterexample: the idempotence claim fails for a never-seen liquid
instrument: with the default configuration and an empty state, the first
evaluation of `("AAAUSDT", price 1, turnover 5000)` at `now = 1000`
returns `NoBaseline`, while the immediately repeated identical evaluation
returns `WindowNotElapsed` — not the same decision. -/
theorem evaluate_not_idempotent :
    (processTicker cfg0 emptyState ⟨"AAAUSDT", 1, 5000⟩ 1000).1 = .NoBaseline ∧
    (processTicker cfg0 (processTicker cfg0 emptyState ⟨"AAAUSDT", 1, 5000⟩ 1000).2
      ⟨"AAAUSDT", 1, 5000⟩ 1000).1 = .WindowNotElapsed ∧
    AlertDecision.NoBaseline ≠ AlertDecision.WindowNotElapsed := by
  refine ⟨?_, ?_, by decide⟩ <;>
    norm_num [processTicker, cfg0, emptyState, setSnap,
      show endswith "AAAUSDT" "USDT" = true from by decide,
      show ("AAAUSDT" : String) ≠ "" from by decide]

/-- C7 amended: with `WINDOW_SECONDS > 0` and any stored snapshot for the
instrument still inside its window, evaluating the same observation twice
with the same `now` leaves the state after the second call equal to the
state after the first (no double mutation); the decision is the same on
both calls in every case except a never-seen instrument at or above the
liquidity floor with a valid symbol, where the first call returns
`NoBaseline` and the second `WindowNotElapsed`. -/
theorem evaluate_idempotent_amended (cfg : Config) (st : ScannerState) (t : Obs) (now : ℤ)
    (hW : 0 < cfg.WINDOW_SECONDS)
    (helap : ∀ prev, st.snapshots t.symbol = some prev →
      now - prev.ts < cfg.WINDOW_SECONDS) :
    (processTicker cfg (processTicker cfg st t now).2 t now).2 =
      (processTicker cfg st t now).2 ∧
    ((st.snapshots t.symbol = none ∧ cfg.MIN_TURNOVER ≤ t.turnover24h ∧
        endswith t.symbol "USDT" = true) →
      (processTicker cfg st t now).1 = .NoBaseline ∧
      (processTicker cfg (processTicker cfg st t now).2 t now).1 = .WindowNotElapsed) ∧
    (¬(st.snapshots t.symbol = none ∧ cfg.MIN_TURNOVER ≤ t.turnover24h ∧
        endswith t.symbol "USDT" = true) →
      (processTicker cfg (processTicker cfg st t now).2 t now).1 =
        (processTicker cfg st t now).1) := by
  by_cases hs : t.symbol = "" ∨ endswith t.symbol "USDT" = false
  · have h1 : processTicker cfg st t now = (.Skipped, st) :=
      processTicker_skip cfg st t now hs
    have h2 : (processTicker cfg st t now).2 = st := by rw [h1]
    refine ⟨by rw [h2]; exact h2, fun hfresh => ?_, fun _ => by rw [h2]⟩
    rcases hs with hemp | hend
    · exact absurd hfresh.2.2 (by rw [hemp]; decide)
    · rw [hfresh.2.2] at hend
      cases hend
  · by_cases hv : t.turnover24h < cfg.MIN_TURNOVER
    · cases hsnap : st.snapshots t.symbol with
      | none =>
        have h1 := processTicker_below_none cfg st t now hs hv hsnap
        have h2 : (processTicker cfg st t now).2 =
            setSnap st t.symbol ⟨t.lastPrice, t.turnover24h, now⟩ := by rw [h1]
        have h3 := processTicker_below_some cfg
          (setSnap st t.symbol ⟨t.lastPrice, t.turnover24h, now⟩) t now hs hv _
          (setSnap_self st t.symbol ⟨t.lastPrice, t.turnover24h, now⟩)
        refine ⟨?_, fun hfresh => absurd hfresh.2.1 (not_le.mpr hv), fun _ => ?_⟩
        · rw [h2, h3]
        · rw [h2, h3, h1]
      | some prev =>
        have h1 := processTicker_below_some cfg st t now hs hv prev hsnap
        have h2 : (processTicker cfg st t now).2 = st := by rw [h1]
        refine ⟨by rw [h2]; exact h2, fun hfresh => absurd hfresh.2.1 (not_le.mpr hv),
          fun _ => by rw [h2]⟩
    · cases hsnap : st.snapshots t.symbol with
      | none =>
        have h1 := processTicker_no_baseline cfg st t now hs hv hsnap
        have h2 : (processTicker cfg st t now).2 =
            setSnap st t.symbol ⟨t.lastPrice, t.turnover24h, now⟩ := by rw [h1]
        have h3 := processTicker_window_open cfg
          (setSnap st t.symbol ⟨t.lastPrice, t.turnover24h, now⟩) t now hs hv _
          (setSnap_self st t.symbol ⟨t.lastPrice, t.turnover24h, now⟩)
          (show ¬now - now ≥ cfg.WINDOW_SECONDS by omega)
        refine ⟨by rw [h2, h3], fun _ => ⟨by rw [h1], by rw [h2, h3]⟩,
          fun hnotfresh => ?_⟩
        exact absurd ⟨rfl, not_lt.mp hv, endswith_true_of_not_skip hs⟩ hnotfresh
      | some prev =>
        have h1 := processTicker_window_open cfg st t now hs hv prev hsnap
          (not_le.mpr (helap prev hsnap))
        have h2 : (processTicker cfg st t now).2 = st := by rw [h1]
        refine ⟨by rw [h2]; exact h2, fun hfresh => ?_, fun _ => by rw [h2]⟩
        obtain ⟨hn, -, -⟩ := hfresh
        exact Option.noConfusion hn

theorem evaluate_idempotent_amended_witness :
    (processTicker cfg0 (processTicker cfg0 emptyState ⟨"AAAUSDT", 1, 5000⟩ 1000).2
        ⟨"AAAUSDT", 1, 5000⟩ 1000).2 =
      (processTicker cfg0 emptyState ⟨"AAAUSDT", 1, 5000⟩ 1000).2 ∧
    ((emptyState.snapshots "AAAUSDT" = none ∧ cfg0.MIN_TURNOVER ≤ (5000 : ℚ) ∧
        endswith "AAAUSDT" "USDT" = true) →
      (processTicker cfg0 emptyState ⟨"AAAUSDT", 1, 5000⟩ 1000).1 = .NoBaseline ∧
      (processTicker cfg0 (processTicker cfg0 emptyState ⟨"AAAUSDT", 1, 5000⟩ 1000).2
        ⟨"AAAUSDT", 1, 5000⟩ 1000).1 = .WindowNotElapsed) ∧
    (¬(emptyState.snapshots "AAAUSDT" = none ∧ cfg0.MIN_TURNOVER ≤ (5000 : ℚ) ∧
        endswith "AAAUSDT" "USDT" = true) →
      (processTicker cfg0 (processTicker cfg0 emptyState ⟨"AAAUSDT", 1, 5000⟩ 1000).2
        ⟨"AAAUSDT", 1, 5000⟩ 1000).1 =
      (processTicker cfg0 emptyState ⟨"AAAUSDT", 1, 5000⟩ 1000).1) :=
  evaluate_idempotent_amended cfg0 emptyState ⟨"AAAUSDT", 1, 5000⟩ 1000
    (by norm_num [cfg0]) (by intro prev h; simp [emptyState] at h)

end BybitScanner
